import Mathlib

/-!
Shallow embedding of the r3bl_rs_utils TUI core covered by the spec:
the dialog component shim (src/tui/src/tui/dialog/dialog_component/dialog_component_struct.rs),
the editor component shim (src/tui/src/tui/editor/component/editor_component.rs),
and the layout macros (src/src/tui/rsx/layout_macros.rs).

The reusable engines (DialogEngineApi / EditorEngineRenderApi) and the
Surface layout-engine bodies are not among the sources; the shims are
therefore parameterised over the engine operations (an arbitrary function
producing the engine response), and the Surface operations are modelled
from the spec where a claim needs them.

Side effects performed by the shims (clearing modal focus on the registry,
invoking the user-supplied callbacks which dispatch to the store) are made
explicit: the embedded `handle_event` returns the updated focus registry
state, the updated store value, and a trace listing the side-effecting
calls in the order the Rust code performs them.
-/

namespace R3blTui

/-- EventPropagation is the tri-state result of event handling
(src/tui core, spec section 4.2). -/
inductive EventPropagation where
  | Propagate
  | Consumed
  | ConsumedRender
deriving DecidableEq, Repr

/-- Identifier of a flex box / component (FlexBoxId / FlexBoxIdType in the
sources; modelled as Nat, the concrete representation is irrelevant to the
claims). -/
abbrev FlexBoxId := Nat

/-- Minimal model of EditorBuffer: per-component text-editing state.
Only its identity matters to the shim claims, so we keep the content lines. -/
structure EditorBuffer where
  lines : List String := []
deriving DecidableEq, Repr

/-- EditorBuffer::default constructs the empty buffer. -/
def EditorBuffer.deflt : EditorBuffer := {}

/-- Minimal model of DialogBuffer: per-component dialog state; the shim
only passes it through to the engine, so we keep the embedded editor
buffer. -/
structure DialogBuffer where
  editor_buffer : EditorBuffer := {}
deriving DecidableEq, Repr

/-- DialogBuffer::new_empty constructs the empty dialog buffer. -/
def DialogBuffer.new_empty : DialogBuffer := {}

/-- User choice produced by a dialog (DialogChoice in the sources:
confirmation carries the entered text, or the dialog was cancelled). -/
inductive DialogChoice where
  | yes (text : String)
  | no
deriving DecidableEq, Repr

/-- Opaque externally decoded input value (InputEvent); the shims only
forward it to the engine. -/
structure InputEvent where
  code : Nat := 0
deriving DecidableEq, Repr

/-- Focus state of the ComponentRegistry: one normal-focus id and an
optional modal-focus id that overrides it (component_registry.has_focus). -/
structure HasFocus where
  maybe_id : Option FlexBoxId := none
  maybe_modal_id : Option FlexBoxId := none
deriving DecidableEq, Repr

/-- HasFocus::reset_modal_id clears the modal-focus id, restoring normal
focus routing. -/
def HasFocus.reset_modal_id (h : HasFocus) : HasFocus :=
  { h with maybe_modal_id := none }

/-- Error kinds surfaced by the core (CommonResult error side); the shims
only propagate engine errors, the layout model uses the layout kinds from
spec section 7. -/
inductive CommonError where
  | ApplyEventError
  | EngineRenderFailure
  | SizeOverflow
  | UnbalancedPop
  | LayoutUnbalanced
deriving DecidableEq, Repr

/-- Response enum of the dialog engine (DialogEngineApplyResponse). The
three named variants appear in the shim match; `Noop` stands for the
catch-all `_` arm (any other response). -/
inductive DialogEngineApplyResponse where
  | DialogChoice (choice : DialogChoice)
  | UpdateEditorBuffer (new_editor_buffer : EditorBuffer)
  | SelectScrollResultsPanel
  | Noop
deriving DecidableEq, Repr

/-- Response enum of the editor engine (ApplyResponse). -/
inductive ApplyResponse where
  | Applied (buffer : EditorBuffer)
  | NotApplied
deriving DecidableEq, Repr

/-- Paint instructions are opaque to the shim claims; a RenderPipeline is
an ordered list of them. -/
structure RenderPipeline where
  ops : List Nat := []
deriving DecidableEq, Repr

/-- Position value pair (col, row). -/
structure Position where
  col : Nat := 0
  row : Nat := 0
deriving DecidableEq, Repr

/-- Size value pair (cols, rows). -/
structure Size where
  cols : Nat := 0
  rows : Nat := 0
deriving DecidableEq, Repr

/-- Bounds of the surface a component was rendered into (SurfaceBounds),
saved by the dialog shim for later clamping. -/
structure SurfaceBounds where
  origin_pos : Position := {}
  box_size : Size := {}
deriving DecidableEq, Repr

/-- Runtime state of the reusable dialog engine that the shim touches:
the saved surface bounds (dialog_engine.maybe_surface_bounds). The rest of
the engine state is behind the abstract engine operations. -/
structure DialogEngine where
  maybe_surface_bounds : Option SurfaceBounds := none
deriving DecidableEq, Repr

/-- State-access capability for dialog buffers (HasDialogBuffers):
read-only id-keyed lookup, modelled as an association list. -/
structure DialogState where
  dialog_buffers : List (FlexBoxId × DialogBuffer) := []
deriving DecidableEq, Repr

/-- HasDialogBuffers::get_dialog_buffer. -/
def DialogState.get_dialog_buffer (s : DialogState) (id : FlexBoxId) :
    Option DialogBuffer :=
  (s.dialog_buffers.find? (fun p => p.1 == id)).map Prod.snd

/-- State-access capability for editor buffers (HasEditorBuffers). -/
structure EditorState where
  buffers : List (FlexBoxId × EditorBuffer) := []
deriving DecidableEq, Repr

/-- HasEditorBuffers::get_editor_buffer. -/
def EditorState.get_editor_buffer (s : EditorState) (id : FlexBoxId) :
    Option EditorBuffer :=
  (s.buffers.find? (fun p => p.1 == id)).map Prod.snd

/-- Side-effecting calls the dialog shim performs while handling an event,
in the order the Rust code performs them: clearing the registry modal
focus, invoking the press handler with the choice, invoking the editor
change handler with the new buffer. -/
inductive DialogShimEffect where
  | reset_modal_id
  | press_handler (choice : DialogChoice)
  | editor_change_handler (new_editor_buffer : EditorBuffer)
deriving DecidableEq, Repr

/-- The dialog component shim (DialogComponent). The engine handle carries
the saved surface bounds; the two optional user-supplied callbacks receive
the shared store (of abstract type σ) and dispatch to it, modelled as a
store transformer. -/
structure DialogComponent (σ : Type) where
  id : FlexBoxId
  dialog_engine : DialogEngine := {}
  on_dialog_press_handler : Option (DialogChoice → σ → σ) := none
  on_dialog_editor_change_handler : Option (EditorBuffer → σ → σ) := none

/-- DialogComponent::get_id. -/
def DialogComponent.get_id {σ : Type} (self : DialogComponent σ) : FlexBoxId :=
  self.id

/-- The buffer the dialog shim works on: fetched from state by id, or a
freshly constructed empty DialogBuffer when the state holds none (the
Cow::Borrowed / Cow::Owned fetch in the source). -/
def DialogComponent.dialog_buffer_from {σ : Type} (self : DialogComponent σ)
    (state : DialogState) : DialogBuffer :=
  match state.get_dialog_buffer self.get_id with
  | some it => it
  | none => DialogBuffer.new_empty

/-- Result of one DialogComponent::handle_event call: the updated focus
registry state (component_registry.has_focus), the store after any callback
dispatched to it, the ordered trace of side-effecting calls, and the
returned propagation. -/
structure DialogEventOutcome (σ : Type) where
  has_focus : HasFocus
  store : σ
  trace : List DialogShimEffect
  propagation : EventPropagation
deriving DecidableEq, Repr

/-- DialogComponent::handle_event
(src/tui/src/tui/dialog/dialog_component/dialog_component_struct.rs,
lines 113-188). The shim fetches the dialog buffer from state (empty
default on absence), delegates to DialogEngineApi::apply_event — here the
abstract parameter `apply_event`, a function of the buffer and the input
event — and maps the response: DialogChoice clears modal focus, then runs
the press handler if set, and returns ConsumedRender; UpdateEditorBuffer
runs the editor-change handler if set and returns Consumed;
SelectScrollResultsPanel returns ConsumedRender; anything else returns
Propagate. An engine error propagates via the Rust `?`. The debug logging
between the focus clear and the handler call is pure logging and is not
modelled. -/
def DialogComponent.handle_event {σ : Type} (self : DialogComponent σ)
    (apply_event : DialogBuffer → InputEvent →
      Except CommonError DialogEngineApplyResponse)
    (state : DialogState) (has_focus : HasFocus) (store : σ)
    (input_event : InputEvent) :
    Except CommonError (DialogEventOutcome σ) :=
  let dialog_buffer : DialogBuffer := self.dialog_buffer_from state
  match apply_event dialog_buffer input_event with
  | Except.error e => Except.error e
  | Except.ok response =>
    match response with
    | DialogEngineApplyResponse.DialogChoice dialog_choice =>
      let has_focus1 := has_focus.reset_modal_id
      match self.on_dialog_press_handler with
      | some it =>
        Except.ok
          { has_focus := has_focus1
            store := it dialog_choice store
            trace := [DialogShimEffect.reset_modal_id,
                      DialogShimEffect.press_handler dialog_choice]
            propagation := EventPropagation.ConsumedRender }
      | none =>
        Except.ok
          { has_focus := has_focus1
            store := store
            trace := [DialogShimEffect.reset_modal_id]
            propagation := EventPropagation.ConsumedRender }
    | DialogEngineApplyResponse.UpdateEditorBuffer new_editor_buffer =>
      match self.on_dialog_editor_change_handler with
      | some it =>
        Except.ok
          { has_focus := has_focus
            store := it new_editor_buffer store
            trace := [DialogShimEffect.editor_change_handler new_editor_buffer]
            propagation := EventPropagation.Consumed }
      | none =>
        Except.ok
          { has_focus := has_focus
            store := store
            trace := []
            propagation := EventPropagation.Consumed }
    | DialogEngineApplyResponse.SelectScrollResultsPanel =>
      Except.ok
        { has_focus := has_focus
          store := store
          trace := []
          propagation := EventPropagation.ConsumedRender }
    | DialogEngineApplyResponse.Noop =>
      Except.ok
        { has_focus := has_focus
          store := store
          trace := []
          propagation := EventPropagation.Propagate }

/-- Arguments the dialog shim packages for the engine render call
(DialogEngineArgs, without the store/registry plumbing the claims never
touch). Note the current FlexBox is not among them. -/
structure DialogEngineArgs where
  self_id : FlexBoxId
  dialog_engine : DialogEngine
  dialog_buffer : DialogBuffer
  window_size : Size
deriving DecidableEq, Repr

/-- A FlexBox as the component shims see it: the resolved rectangle the
layout placed the component into. Only its identity matters to the dialog
render claim (the shim ignores it). -/
structure FlexBox where
  id : FlexBoxId := 0
  origin : Position := {}
  size : Size := {}
deriving DecidableEq, Repr

/-- DialogComponent::render
(src/tui/src/tui/dialog/dialog_component/dialog_component_struct.rs,
lines 65-102). Saves surface_bounds into the engine, fetches the dialog
buffer (empty default on absence), and delegates to
DialogEngineApi::render_engine (here the abstract `render_engine`), passing
the engine args; `_current_box` is ignored. Returns the updated engine
state together with the engine render result. -/
def DialogComponent.render {σ : Type} (self : DialogComponent σ)
    (render_engine : DialogEngineArgs → Except CommonError RenderPipeline)
    (state : DialogState) (window_size : Size) (_current_box : FlexBox)
    (surface_bounds : SurfaceBounds) :
    DialogEngine × Except CommonError RenderPipeline :=
  let dialog_engine1 : DialogEngine :=
    { self.dialog_engine with maybe_surface_bounds := some surface_bounds }
  let dialog_buffer : DialogBuffer := self.dialog_buffer_from state
  let dialog_engine_args : DialogEngineArgs :=
    { self_id := self.get_id
      dialog_engine := dialog_engine1
      dialog_buffer := dialog_buffer
      window_size := window_size }
  (dialog_engine1, render_engine dialog_engine_args)

/-- Side-effecting call the editor shim performs while handling an event:
invoking the buffer-change handler with the component id and the new
buffer (the Rust callback also receives the shared store). -/
inductive EditorShimEffect where
  | buffer_change_handler (id : FlexBoxId) (buffer : EditorBuffer)
deriving DecidableEq, Repr

/-- The editor component shim (EditorComponent). -/
structure EditorComponent (σ : Type) where
  id : FlexBoxId
  on_editor_buffer_change_handler : Option (σ → FlexBoxId → EditorBuffer → σ) :=
    none

/-- EditorComponent::get_id. -/
def EditorComponent.get_id {σ : Type} (self : EditorComponent σ) : FlexBoxId :=
  self.id

/-- The buffer the editor shim works on: fetched from state by id, or
EditorBuffer::default when the state holds none (the Cow::Borrowed /
Cow::Owned fetch in the source). -/
def EditorComponent.editor_buffer_from {σ : Type} (self : EditorComponent σ)
    (state : EditorState) : EditorBuffer :=
  match state.get_editor_buffer self.get_id with
  | some buffer => buffer
  | none => EditorBuffer.deflt

/-- Result of one EditorComponent::handle_event call: the store after any
callback dispatched to it, the ordered trace of side-effecting calls, and
the returned propagation. -/
structure EditorEventOutcome (σ : Type) where
  store : σ
  trace : List EditorShimEffect
  propagation : EventPropagation
deriving DecidableEq, Repr

/-- EditorComponent::handle_event
(src/tui/src/tui/editor/component/editor_component.rs, lines 68-114).
The shim fetches the editor buffer from state (EditorBuffer::default on
absence), delegates to EditorEngineRenderApi::apply_event — here the
abstract `apply_event` — and maps the response: Applied runs the
buffer-change handler if set (with the store, the component id and the new
buffer) and returns Consumed; NotApplied returns Propagate. An engine
error propagates via the Rust `?`. -/
def EditorComponent.handle_event {σ : Type} (self : EditorComponent σ)
    (apply_event : EditorBuffer → InputEvent → Except CommonError ApplyResponse)
    (state : EditorState) (store : σ) (input_event : InputEvent) :
    Except CommonError (EditorEventOutcome σ) :=
  let my_buffer : EditorBuffer := self.editor_buffer_from state
  match apply_event my_buffer input_event with
  | Except.error e => Except.error e
  | Except.ok response =>
    match response with
    | ApplyResponse.Applied buffer =>
      match self.on_editor_buffer_change_handler with
      | some on_change_handler =>
        Except.ok
          { store := on_change_handler store self.get_id buffer
            trace := [EditorShimEffect.buffer_change_handler self.get_id buffer]
            propagation := EventPropagation.Consumed }
      | none =>
        Except.ok
          { store := store
            trace := []
            propagation := EventPropagation.Consumed }
    | ApplyResponse.NotApplied =>
      Except.ok
        { store := store
          trace := []
          propagation := EventPropagation.Propagate }

/-- Arguments the editor shim packages for the engine render call
(EditorEngineArgs, without the store/registry plumbing the claims never
touch). -/
structure EditorEngineArgs where
  self_id : FlexBoxId
  buffer : EditorBuffer
deriving DecidableEq, Repr

/-- EditorComponent::render
(src/tui/src/tui/editor/component/editor_component.rs, lines 124-156).
Fetches the editor buffer (EditorBuffer::default on absence) and delegates
to EditorEngineRenderApi::render_engine — here the abstract
`render_engine` — with the packaged args and the current box. -/
def EditorComponent.render {σ : Type} (self : EditorComponent σ)
    (render_engine : EditorEngineArgs → FlexBox →
      Except CommonError RenderPipeline)
    (state : EditorState) (current_box : FlexBox) :
    Except CommonError RenderPipeline :=
  render_engine
    { self_id := self.get_id, buffer := self.editor_buffer_from state }
    current_box

/-- Modelled from the spec: the Surface / box_start / box_end bodies are
not among the sources (only the macros that call them are), so the layout
engine is modelled from spec sections 4.1 and 8. A FlexBox of the layout
model is the resolved extent along the parent layout direction: origin
and size as exact rationals (the spec gives no rounding rule; its section-8
scenario — spans 60 and 40 out of 100 — is exact). -/
structure LayoutFlexBox where
  id : String := ""
  origin : ℚ := 0
  size : ℚ := 0
deriving DecidableEq, Repr

/-- Modelled from the spec: an open box on the surface LIFO stack,
carrying the remaining-space cursor that advances as its children end
(spec section 4.1). -/
structure LayoutOpenBox where
  box : LayoutFlexBox
  cursor : ℚ := 0
deriving DecidableEq, Repr

/-- Modelled from the spec: the Surface layout context along one layout
direction — its span, the remaining-space cursor at surface level, the
stack of open boxes (innermost first), and the closed boxes, which on
box_end become immutable records available to the render pipeline (spec
section 3). -/
structure Surface where
  span : ℚ := 0
  cursor : ℚ := 0
  stack : List LayoutOpenBox := []
  records : List LayoutFlexBox := []
deriving DecidableEq, Repr

/-- Span of the current top-of-stack box, or the surface itself when the
stack is empty (spec section 4.1). -/
def Surface.parent_span (s : Surface) : ℚ :=
  match s.stack with
  | [] => s.span
  | ob :: _ => ob.box.size

/-- Remaining-space cursor of the current top-of-stack box, or of the
surface itself when the stack is empty. -/
def Surface.parent_cursor (s : Surface) : ℚ :=
  match s.stack with
  | [] => s.cursor
  | ob :: _ => ob.cursor

/-- Origin of the current top-of-stack box (the surface origin is 0 in
this one-direction model). -/
def Surface.parent_origin (s : Surface) : ℚ :=
  match s.stack with
  | [] => 0
  | ob :: _ => ob.box.origin

/-- Modelled from the spec: Surface::box_start (spec section 4.1).
The requested percentage is resolved against the parent span (per the
section-8 scenario: box B requesting 40 percent of a 100-wide surface
spans 40 columns even after box A consumed 60); the resolved size is
checked against the parent current remaining space, failing with
SizeOverflow when it exceeds it, so a sibling sequence whose percentages
sum over 100 overflows at the box that pushes past the limit. On success
the new open box is pushed at the parent cursor. -/
def Surface.box_start (s : Surface) (id : String) (percent : ℚ) :
    Except CommonError Surface :=
  let resolved : ℚ := percent * s.parent_span / 100
  if s.parent_span - s.parent_cursor < resolved then
    Except.error CommonError.SizeOverflow
  else
    Except.ok
      { s with stack :=
          { box := { id := id
                     origin := s.parent_origin + s.parent_cursor
                     size := resolved }
            cursor := 0 } :: s.stack }

/-- Modelled from the spec: Surface::box_end (spec section 4.1). Pops the
top box — failing with UnbalancedPop on an empty stack — advances the
parent remaining-space cursor by the popped extent, and appends the
popped box to the immutable records. -/
def Surface.box_end (s : Surface) : Except CommonError Surface :=
  match s.stack with
  | [] => Except.error CommonError.UnbalancedPop
  | ob :: rest =>
    match rest with
    | [] =>
      Except.ok
        { s with cursor := s.cursor + ob.box.size
                 stack := []
                 records := s.records ++ [ob.box] }
    | parent :: rest2 =>
      Except.ok
        { s with stack := { parent with cursor := parent.cursor + ob.box.size } :: rest2
                 records := s.records ++ [ob.box] }

/-- A piece of code run on the surface while a box is open (the `render!`
body or a runnable run_on_surface call): it may mutate the surface and may
fail; on failure the surface keeps whatever mutations happened before the
failure, as with a Rust `&mut` receiver. -/
abbrev SurfaceStep := Surface → Except CommonError PUnit × Surface

/-- Expansion of the box_start_with_component macro
(src/src/tui/rsx/layout_macros.rs, lines 20-45): the expanded code is the
statement sequence `surface.box_start(props)?; render!(...); box_end()?`,
where each `?` returns the error to the caller immediately. The render
step is the abstract `render_step` (the render macro body is not among the
sources). -/
def box_start_with_component (id : String) (percent : ℚ)
    (render_step : SurfaceStep) (surface : Surface) :
    Except CommonError PUnit × Surface :=
  match surface.box_start id percent with
  | Except.error e => (Except.error e, surface)
  | Except.ok s1 =>
    match render_step s1 with
    | (Except.error e, s2) => (Except.error e, s2)
    | (Except.ok _, s2) =>
      match s2.box_end with
      | Except.error e => (Except.error e, s2)
      | Except.ok s3 => (Except.ok PUnit.unit, s3)

/-- Expansion of the box_start_with_runnable macro
(src/src/tui/rsx/layout_macros.rs, lines 51-77): the statement sequence
`surface.box_start(props)?; runnable.run_on_surface(...).await?;
surface.box_end()?`. The runnable is the abstract `run_on_surface`. -/
def box_start_with_runnable (id : String) (percent : ℚ)
    (run_on_surface : SurfaceStep) (surface : Surface) :
    Except CommonError PUnit × Surface :=
  match surface.box_start id percent with
  | Except.error e => (Except.error e, surface)
  | Except.ok s1 =>
    match run_on_surface s1 with
    | (Except.error e, s2) => (Except.error e, s2)
    | (Except.ok _, s2) =>
      match s2.box_end with
      | Except.error e => (Except.error e, s2)
      | Except.ok s3 => (Except.ok PUnit.unit, s3)

/-- One sibling: box_start immediately paired with box_end, as the layout
macros expand to. -/
def Surface.start_end (s : Surface) (id : String) (percent : ℚ) :
    Except CommonError Surface :=
  match s.box_start id percent with
  | Except.error e => Except.error e
  | Except.ok s1 => s1.box_end

/-- A sequence of sibling boxes under one parent: each requested
percentage is started and ended in turn; the first failure aborts the
sequence, leaving the surface as of the failing call. -/
def run_siblings (s : Surface) : List (String × ℚ) → Except CommonError Surface
  | [] => Except.ok s
  | p :: rest =>
    match s.start_end p.1 p.2 with
    | Except.error e => Except.error e
    | Except.ok s1 => run_siblings s1 rest

/-- The records a successful sibling sequence leaves behind: each box
sits at the cursor left by its predecessors and spans its percentage of
the parent span. -/
def sibling_boxes (span : ℚ) : ℚ → List (String × ℚ) → List LayoutFlexBox
  | _, [] => []
  | c, p :: rest =>
    { id := p.1, origin := c, size := p.2 * span / 100 } ::
      sibling_boxes span (c + p.2 * span / 100) rest

/-- C1: for every input event to which the dialog engine responds with
DialogChoice, handle_event clears the registry modal-focus id strictly
before the registered on_dialog_press_handler is invoked with the choice:
the side-effect trace is exactly the focus clear followed by the handler
call, the returned registry focus state has no modal id (so the next
routed event sees restored focus), and the store reflects the handler run
after the clear. -/
theorem dialog_choice_clears_modal_before_press_handler {σ : Type}
    (self : DialogComponent σ)
    (apply_event : DialogBuffer → InputEvent →
      Except CommonError DialogEngineApplyResponse)
    (state : DialogState) (has_focus : HasFocus) (store : σ)
    (input_event : InputEvent) (choice : DialogChoice)
    (handler : DialogChoice → σ → σ)
    (h_handler : self.on_dialog_press_handler = some handler)
    (h_resp : apply_event (self.dialog_buffer_from state) input_event =
      Except.ok (DialogEngineApplyResponse.DialogChoice choice)) :
    self.handle_event apply_event state has_focus store input_event =
      Except.ok
        { has_focus := has_focus.reset_modal_id
          store := handler choice store
          trace := [DialogShimEffect.reset_modal_id,
                    DialogShimEffect.press_handler choice]
          propagation := EventPropagation.ConsumedRender }
    ∧ has_focus.reset_modal_id.maybe_modal_id = none := by
  constructor
  · simp [DialogComponent.handle_event, h_resp, h_handler]
  · rfl

/-- Witness for C1 at a concrete component, engine response and event. -/
theorem dialog_choice_clears_modal_before_press_handler_witness :
    (DialogComponent.handle_event (σ := Nat)
        { id := 1, on_dialog_press_handler := some (fun _ n => n + 1) }
        (fun _ _ => Except.ok
          (DialogEngineApplyResponse.DialogChoice DialogChoice.no))
        {} { maybe_id := some 2, maybe_modal_id := some 1 } 0 {} =
      Except.ok
        { has_focus := { maybe_id := some 2, maybe_modal_id := none }
          store := 1
          trace := [DialogShimEffect.reset_modal_id,
                    DialogShimEffect.press_handler DialogChoice.no]
          propagation := EventPropagation.ConsumedRender })
    ∧ (HasFocus.reset_modal_id
        { maybe_id := some 2, maybe_modal_id := some 1 }).maybe_modal_id =
        none :=
  dialog_choice_clears_modal_before_press_handler
    { id := 1, on_dialog_press_handler := some (fun _ n => n + 1) }
    (fun _ _ => Except.ok
      (DialogEngineApplyResponse.DialogChoice DialogChoice.no))
    {} { maybe_id := some 2, maybe_modal_id := some 1 } 0 {}
    DialogChoice.no (fun _ n => n + 1) rfl rfl

/-- C9: a DialogChoice response clears modal focus and yields
ConsumedRender even when no press handler is registered: the trace holds
only the focus clear and the store is untouched, so focus restoration and
the re-render signal do not depend on a handler being present. -/
theorem dialog_choice_without_press_handler {σ : Type}
    (self : DialogComponent σ)
    (apply_event : DialogBuffer → InputEvent →
      Except CommonError DialogEngineApplyResponse)
    (state : DialogState) (has_focus : HasFocus) (store : σ)
    (input_event : InputEvent) (choice : DialogChoice)
    (h_handler : self.on_dialog_press_handler = none)
    (h_resp : apply_event (self.dialog_buffer_from state) input_event =
      Except.ok (DialogEngineApplyResponse.DialogChoice choice)) :
    self.handle_event apply_event state has_focus store input_event =
      Except.ok
        { has_focus := has_focus.reset_modal_id
          store := store
          trace := [DialogShimEffect.reset_modal_id]
          propagation := EventPropagation.ConsumedRender } := by
  simp [DialogComponent.handle_event, h_resp, h_handler]

/-- Witness for C9 at a concrete component with no press handler. -/
theorem dialog_choice_without_press_handler_witness :
    DialogComponent.handle_event (σ := Nat) { id := 1 }
        (fun _ _ => Except.ok
          (DialogEngineApplyResponse.DialogChoice (DialogChoice.yes "ok")))
        {} { maybe_id := some 2, maybe_modal_id := some 1 } 7 {} =
      Except.ok
        { has_focus := { maybe_id := some 2, maybe_modal_id := none }
          store := 7
          trace := [DialogShimEffect.reset_modal_id]
          propagation := EventPropagation.ConsumedRender } :=
  dialog_choice_without_press_handler { id := 1 }
    (fun _ _ => Except.ok
      (DialogEngineApplyResponse.DialogChoice (DialogChoice.yes "ok")))
    {} { maybe_id := some 2, maybe_modal_id := some 1 } 7 {}
    (DialogChoice.yes "ok") rfl rfl

/-- C2: the propagation the dialog shim returns for each engine response
follows the spec table exactly — DialogChoice gives ConsumedRender after
the press handler (if set) ran, UpdateEditorBuffer gives Consumed after
the editor-change handler (if set) ran, SelectScrollResultsPanel gives
ConsumedRender, and every other response gives Propagate. -/
theorem dialog_apply_response_propagation_table {σ : Type}
    (self : DialogComponent σ)
    (apply_event : DialogBuffer → InputEvent →
      Except CommonError DialogEngineApplyResponse)
    (state : DialogState) (has_focus : HasFocus) (store : σ)
    (input_event : InputEvent) (response : DialogEngineApplyResponse)
    (h_resp : apply_event (self.dialog_buffer_from state) input_event =
      Except.ok response) :
    (self.handle_event apply_event state has_focus store input_event).map
        (fun o => (o.propagation, o.trace)) =
      Except.ok
        (match response with
          | DialogEngineApplyResponse.DialogChoice choice =>
            (EventPropagation.ConsumedRender,
              DialogShimEffect.reset_modal_id ::
                (match self.on_dialog_press_handler with
                  | some _ => [DialogShimEffect.press_handler choice]
                  | none => []))
          | DialogEngineApplyResponse.UpdateEditorBuffer b =>
            (EventPropagation.Consumed,
              match self.on_dialog_editor_change_handler with
                | some _ => [DialogShimEffect.editor_change_handler b]
                | none => [])
          | DialogEngineApplyResponse.SelectScrollResultsPanel =>
            (EventPropagation.ConsumedRender, [])
          | DialogEngineApplyResponse.Noop =>
            (EventPropagation.Propagate, [])) := by
  cases response with
  | DialogChoice choice =>
    cases hp : self.on_dialog_press_handler <;>
      simp [DialogComponent.handle_event, Except.map, h_resp, hp]
  | UpdateEditorBuffer b =>
    cases hc : self.on_dialog_editor_change_handler <;>
      simp [DialogComponent.handle_event, Except.map, h_resp, hc]
  | SelectScrollResultsPanel =>
    simp [DialogComponent.handle_event, Except.map, h_resp]
  | Noop => simp [DialogComponent.handle_event, Except.map, h_resp]

/-- Witness for C2 at a concrete component and an UpdateEditorBuffer
response with the editor-change handler set. -/
theorem dialog_apply_response_propagation_table_witness :
    (DialogComponent.handle_event (σ := Nat)
        { id := 1, on_dialog_editor_change_handler := some (fun _ n => n + 5) }
        (fun _ _ => Except.ok
          (DialogEngineApplyResponse.UpdateEditorBuffer { lines := ["x"] }))
        {} {} 0 {}).map (fun o => (o.propagation, o.trace)) =
      Except.ok
        (EventPropagation.Consumed,
          [DialogShimEffect.editor_change_handler { lines := ["x"] }]) :=
  dialog_apply_response_propagation_table
    { id := 1, on_dialog_editor_change_handler := some (fun _ n => n + 5) }
    (fun _ _ => Except.ok
      (DialogEngineApplyResponse.UpdateEditorBuffer { lines := ["x"] }))
    {} {} 0 {}
    (DialogEngineApplyResponse.UpdateEditorBuffer { lines := ["x"] }) rfl

/-- C3: when the editor engine returns Applied(new_buffer) the shim
invokes the registered buffer-change callback exactly once with the
component id and the new buffer value (the side-effect trace is that
single call, and the store reflects one application of the callback);
when the engine returns NotApplied the shim returns Propagate and invokes
no callback. -/
theorem editor_applied_fires_callback_once {σ : Type}
    (self : EditorComponent σ) (state : EditorState) (store : σ)
    (input_event : InputEvent) (handler : σ → FlexBoxId → EditorBuffer → σ)
    (h_handler : self.on_editor_buffer_change_handler = some handler) :
    (∀ (apply_event : EditorBuffer → InputEvent →
        Except CommonError ApplyResponse) (buffer : EditorBuffer),
      apply_event (self.editor_buffer_from state) input_event =
          Except.ok (ApplyResponse.Applied buffer) →
      self.handle_event apply_event state store input_event =
        Except.ok
          { store := handler store self.get_id buffer
            trace := [EditorShimEffect.buffer_change_handler self.get_id buffer]
            propagation := EventPropagation.Consumed })
    ∧ (∀ (apply_event : EditorBuffer → InputEvent →
        Except CommonError ApplyResponse),
      apply_event (self.editor_buffer_from state) input_event =
          Except.ok ApplyResponse.NotApplied →
      self.handle_event apply_event state store input_event =
        Except.ok
          { store := store
            trace := []
            propagation := EventPropagation.Propagate }) := by
  constructor
  · intro apply_event buffer h_resp
    simp [EditorComponent.handle_event, h_resp, h_handler]
  · intro apply_event h_resp
    simp [EditorComponent.handle_event, h_resp]

/-- Witness for C3 at a concrete component: one engine answering Applied,
one answering NotApplied. -/
theorem editor_applied_fires_callback_once_witness :
    (EditorComponent.handle_event (σ := Nat)
        { id := 3, on_editor_buffer_change_handler := some (fun n _ _ => n + 1) }
        (fun _ _ => Except.ok (ApplyResponse.Applied { lines := ["hi"] }))
        {} 0 {} =
      Except.ok
        { store := 1
          trace := [EditorShimEffect.buffer_change_handler 3 { lines := ["hi"] }]
          propagation := EventPropagation.Consumed })
    ∧ (EditorComponent.handle_event (σ := Nat)
        { id := 3, on_editor_buffer_change_handler := some (fun n _ _ => n + 1) }
        (fun _ _ => Except.ok ApplyResponse.NotApplied)
        {} 0 {} =
      Except.ok
        { store := 0
          trace := []
          propagation := EventPropagation.Propagate }) :=
  ⟨(editor_applied_fires_callback_once
      { id := 3, on_editor_buffer_change_handler := some (fun n _ _ => n + 1) }
      {} 0 {} (fun n _ _ => n + 1) rfl).1
    (fun _ _ => Except.ok (ApplyResponse.Applied { lines := ["hi"] }))
    { lines := ["hi"] } rfl,
  (editor_applied_fires_callback_once
      { id := 3, on_editor_buffer_change_handler := some (fun n _ _ => n + 1) }
      {} 0 {} (fun n _ _ => n + 1) rfl).2
    (fun _ _ => Except.ok ApplyResponse.NotApplied) rfl⟩

/-- C10: when the editor engine returns Applied but no buffer-change
handler is registered, handle_event still returns Consumed while
dispatching nothing: the store is unchanged, the trace empty, and the new
buffer value is discarded. -/
theorem editor_applied_without_handler {σ : Type}
    (self : EditorComponent σ)
    (apply_event : EditorBuffer → InputEvent → Except CommonError ApplyResponse)
    (state : EditorState) (store : σ) (input_event : InputEvent)
    (buffer : EditorBuffer)
    (h_handler : self.on_editor_buffer_change_handler = none)
    (h_resp : apply_event (self.editor_buffer_from state) input_event =
      Except.ok (ApplyResponse.Applied buffer)) :
    self.handle_event apply_event state store input_event =
      Except.ok
        { store := store
          trace := []
          propagation := EventPropagation.Consumed } := by
  simp [EditorComponent.handle_event, h_resp, h_handler]

/-- Witness for C10 at a concrete component with no handler. -/
theorem editor_applied_without_handler_witness :
    EditorComponent.handle_event (σ := Nat) { id := 3 }
        (fun _ _ => Except.ok (ApplyResponse.Applied { lines := ["hi"] }))
        {} 9 {} =
      Except.ok
        { store := 9
          trace := []
          propagation := EventPropagation.Consumed } :=
  editor_applied_without_handler { id := 3 }
    (fun _ _ => Except.ok (ApplyResponse.Applied { lines := ["hi"] }))
    {} 9 {} { lines := ["hi"] } rfl rfl

/-- C4 counterexample: the claim needs the propagation returned for
Applied to distinguish re-render-requiring changes from others, with
layout-affecting edits signalled as ConsumedRender. The shim answers
Consumed for a content-changing Applied (a new line appears in the
buffer, a layout-affecting edit) just as for an Applied carrying an empty
buffer, and Consumed is not ConsumedRender: the propagation is the same
for both and is never the required ConsumedRender. -/
theorem editor_applied_propagation_cex :
    ((EditorComponent.handle_event (σ := Nat)
        { id := 1, on_editor_buffer_change_handler := some (fun n _ _ => n) }
        (fun _ _ => Except.ok (ApplyResponse.Applied { lines := ["a new line"] }))
        {} 0 {}).map (fun o => o.propagation) =
      Except.ok EventPropagation.Consumed)
    ∧ ((EditorComponent.handle_event (σ := Nat)
        { id := 1, on_editor_buffer_change_handler := some (fun n _ _ => n) }
        (fun _ _ => Except.ok (ApplyResponse.Applied { lines := [] }))
        {} 0 {}).map (fun o => o.propagation) =
      Except.ok EventPropagation.Consumed)
    ∧ EventPropagation.Consumed ≠ EventPropagation.ConsumedRender :=
  ⟨rfl, rfl, by decide⟩

/-- C4 amended: for every Applied response the editor shim returns
Consumed — it never returns ConsumedRender, so the propagation does not
distinguish layout-affecting edits from pure cursor moves. -/
theorem editor_applied_propagation_always_consumed {σ : Type}
    (self : EditorComponent σ)
    (apply_event : EditorBuffer → InputEvent → Except CommonError ApplyResponse)
    (state : EditorState) (store : σ) (input_event : InputEvent)
    (buffer : EditorBuffer)
    (h_resp : apply_event (self.editor_buffer_from state) input_event =
      Except.ok (ApplyResponse.Applied buffer)) :
    (self.handle_event apply_event state store input_event).map
        (fun o => o.propagation) = Except.ok EventPropagation.Consumed := by
  cases hh : self.on_editor_buffer_change_handler <;>
    simp [EditorComponent.handle_event, Except.map, h_resp, hh]

/-- Witness for the C4 amended theorem at a concrete Applied response. -/
theorem editor_applied_propagation_always_consumed_witness :
    (EditorComponent.handle_event (σ := Nat) { id := 2 }
        (fun _ _ => Except.ok (ApplyResponse.Applied { lines := ["z"] }))
        {} 0 {}).map (fun o => o.propagation) =
      Except.ok EventPropagation.Consumed :=
  editor_applied_propagation_always_consumed { id := 2 }
    (fun _ _ => Except.ok (ApplyResponse.Applied { lines := ["z"] }))
    {} 0 {} { lines := ["z"] } rfl

/-- C7: DialogComponent::render does not depend on the current_box
argument — two calls differing only in current_box return the same engine
state and the same pipeline result — and every call records the passed
surface_bounds into dialog_engine.maybe_surface_bounds. -/
theorem dialog_render_ignores_current_box {σ : Type}
    (self : DialogComponent σ)
    (render_engine : DialogEngineArgs → Except CommonError RenderPipeline)
    (state : DialogState) (window_size : Size) (box1 box2 : FlexBox)
    (surface_bounds : SurfaceBounds) :
    self.render render_engine state window_size box1 surface_bounds =
      self.render render_engine state window_size box2 surface_bounds
    ∧ (self.render render_engine state window_size box1
        surface_bounds).1.maybe_surface_bounds = some surface_bounds :=
  ⟨rfl, rfl⟩

/-- C6: when the state-access capability returns None for the component
id, the dialog and editor shims proceed, in handle_event and render alike,
with a freshly default-constructed empty buffer (DialogBuffer::new_empty /
EditorBuffer::default), and the absence itself never causes a failure: a
handle_event whose engine succeeds on the empty default succeeds, and each
render delegates to the engine with exactly the empty default buffer. -/
theorem absent_buffer_defaults_and_never_fails {σ τ : Type}
    (dself : DialogComponent σ) (dstate : DialogState)
    (eself : EditorComponent τ) (estate : EditorState)
    (has_focus : HasFocus) (dstore : σ) (estore : τ)
    (input_event : InputEvent)
    (d_apply : DialogBuffer → InputEvent →
      Except CommonError DialogEngineApplyResponse)
    (e_apply : EditorBuffer → InputEvent → Except CommonError ApplyResponse)
    (d_resp : DialogEngineApplyResponse) (e_resp : ApplyResponse)
    (d_render : DialogEngineArgs → Except CommonError RenderPipeline)
    (e_render : EditorEngineArgs → FlexBox → Except CommonError RenderPipeline)
    (window_size : Size) (current_box : FlexBox)
    (surface_bounds : SurfaceBounds)
    (hd : dstate.get_dialog_buffer dself.get_id = none)
    (he : estate.get_editor_buffer eself.get_id = none)
    (hd_ok : d_apply DialogBuffer.new_empty input_event = Except.ok d_resp)
    (he_ok : e_apply EditorBuffer.deflt input_event = Except.ok e_resp) :
    dself.dialog_buffer_from dstate = DialogBuffer.new_empty
    ∧ eself.editor_buffer_from estate = EditorBuffer.deflt
    ∧ (∃ outcome, dself.handle_event d_apply dstate has_focus dstore
        input_event = Except.ok outcome)
    ∧ (∃ outcome, eself.handle_event e_apply estate estore input_event =
        Except.ok outcome)
    ∧ (dself.render d_render dstate window_size current_box
        surface_bounds).2 =
      d_render
        { self_id := dself.get_id
          dialog_engine := { maybe_surface_bounds := some surface_bounds }
          dialog_buffer := DialogBuffer.new_empty
          window_size := window_size }
    ∧ eself.render e_render estate current_box =
      e_render { self_id := eself.get_id, buffer := EditorBuffer.deflt }
        current_box := by
  have hb : dself.dialog_buffer_from dstate = DialogBuffer.new_empty := by
    simp [DialogComponent.dialog_buffer_from, hd]
  have eb : eself.editor_buffer_from estate = EditorBuffer.deflt := by
    simp [EditorComponent.editor_buffer_from, he]
  refine ⟨hb, eb, ?_, ?_, ?_, ?_⟩
  · simp only [DialogComponent.handle_event, hb, hd_ok]
    cases d_resp with
    | DialogChoice c =>
      cases hp : dself.on_dialog_press_handler <;> simp [hp]
    | UpdateEditorBuffer b =>
      cases hc : dself.on_dialog_editor_change_handler <;> simp [hc]
    | SelectScrollResultsPanel => simp
    | Noop => simp
  · simp only [EditorComponent.handle_event, eb, he_ok]
    cases e_resp with
    | Applied b =>
      cases hh : eself.on_editor_buffer_change_handler <;> simp [hh]
    | NotApplied => simp
  · simp [DialogComponent.render, hb]
  · simp [EditorComponent.render, eb]

/-- Witness for C6 at concrete components over empty states (so both
lookups return none) and concrete engines that accept the empty buffer. -/
theorem absent_buffer_defaults_and_never_fails_witness :
    DialogComponent.dialog_buffer_from (σ := Nat) { id := 5 } {} =
      DialogBuffer.new_empty
    ∧ EditorComponent.editor_buffer_from (σ := Nat) { id := 6 } {} =
      EditorBuffer.deflt
    ∧ (∃ outcome, DialogComponent.handle_event (σ := Nat) { id := 5 }
        (fun _ _ => Except.ok DialogEngineApplyResponse.SelectScrollResultsPanel)
        {} {} 0 {} = Except.ok outcome)
    ∧ (∃ outcome, EditorComponent.handle_event (σ := Nat) { id := 6 }
        (fun _ _ => Except.ok ApplyResponse.NotApplied) {} 0 {} =
        Except.ok outcome)
    ∧ (DialogComponent.render (σ := Nat) { id := 5 }
        (fun args => Except.ok { ops := [args.self_id] }) {} {} {} {}).2 =
      (fun (args : DialogEngineArgs) => Except.ok
          (RenderPipeline.mk [args.self_id]))
        { self_id := 5
          dialog_engine := { maybe_surface_bounds := some {} }
          dialog_buffer := DialogBuffer.new_empty
          window_size := {} }
    ∧ EditorComponent.render (σ := Nat) { id := 6 }
        (fun args _ => Except.ok { ops := [args.self_id] }) {} {} =
      (fun (args : EditorEngineArgs) (_ : FlexBox) => Except.ok
          (RenderPipeline.mk [args.self_id]))
        { self_id := 6, buffer := EditorBuffer.deflt } {} :=
  absent_buffer_defaults_and_never_fails { id := 5 } {} { id := 6 } {} {} 0 0 {}
    (fun _ _ => Except.ok DialogEngineApplyResponse.SelectScrollResultsPanel)
    (fun _ _ => Except.ok ApplyResponse.NotApplied)
    DialogEngineApplyResponse.SelectScrollResultsPanel ApplyResponse.NotApplied
    (fun args => Except.ok { ops := [args.self_id] })
    (fun args _ => Except.ok { ops := [args.self_id] })
    {} {} {} rfl rfl rfl rfl

/-- C5 counterexample: with a runnable whose run_on_surface step fails,
the expanded code of box_start_with_runnable performs a successful
box_start and then returns the error from the run step immediately —
control leaves the expansion with the opened box still on the stack,
never closed by box_end (the claim requires a matching box_end on this
exit path too). The component macro expands to the same statement shape,
so the same failing middle step refutes it as well. -/
theorem layout_macro_balance_cex :
    Surface.box_start { span := 100 } "x" 50 =
      Except.ok
        { span := 100
          cursor := 0
          stack := [{ box := { id := "x", origin := 0, size := 50 }
                      cursor := 0 }]
          records := [] }
    ∧ box_start_with_runnable "x" 50
        (fun s => (Except.error CommonError.EngineRenderFailure, s))
        { span := 100 } =
      (Except.error CommonError.EngineRenderFailure,
        { span := 100
          cursor := 0
          stack := [{ box := { id := "x", origin := 0, size := 50 }
                      cursor := 0 }]
          records := [] })
    ∧ box_start_with_component "x" 50
        (fun s => (Except.error CommonError.EngineRenderFailure, s))
        { span := 100 } =
      (Except.error CommonError.EngineRenderFailure,
        { span := 100
          cursor := 0
          stack := [{ box := { id := "x", origin := 0, size := 50 }
                      cursor := 0 }]
          records := [] })
    ∧ ([{ box := { id := "x", origin := (0 : ℚ), size := 50 }, cursor := 0 }] :
        List LayoutOpenBox).length = ([] : List LayoutOpenBox).length + 1 := by
  have h1 : Surface.box_start { span := 100 } "x" 50 =
      Except.ok
        { span := 100
          cursor := 0
          stack := [{ box := { id := "x", origin := 0, size := 50 }
                      cursor := 0 }]
          records := [] } := by
    norm_num [Surface.box_start, Surface.parent_span, Surface.parent_cursor,
      Surface.parent_origin]
  refine ⟨h1, ?_, ?_, rfl⟩
  · simp only [box_start_with_runnable, h1]
  · simp only [box_start_with_component, h1]

/-- Helper: ending a box whose stack is known to be a cons pops that box,
succeeds, and leaves one level less on the stack. -/
theorem box_end_of_stack_cons (s2 : Surface) (nb : LayoutOpenBox)
    (rest : List LayoutOpenBox) (h : s2.stack = nb :: rest) :
    ∃ s3, s2.box_end = Except.ok s3 ∧ s3.stack.length = rest.length
      ∧ s3.records = s2.records ++ [nb.box] := by
  cases rest with
  | nil =>
    refine ⟨{ s2 with
        cursor := s2.cursor + nb.box.size
        stack := []
        records := s2.records ++ [nb.box] }, ?_, ?_, ?_⟩
    · simp [Surface.box_end, h]
    · simp
    · simp
  | cons parent rest2 =>
    refine ⟨{ s2 with
        stack := { parent with cursor := parent.cursor + nb.box.size } :: rest2
        records := s2.records ++ [nb.box] }, ?_, ?_, ?_⟩
    · simp [Surface.box_end, h]
    · simp
    · simp

/-- C5 amended: the macro expansions keep box_start/box_end balanced on
the successful path — when the middle step (render for
box_start_with_component, run_on_surface for box_start_with_runnable)
succeeds and returns the open-box stack as it found it, the expansion
runs box_end and returns a surface of the original stack depth — but when
the middle step fails, each expansion returns that error immediately with
no box_end: the surface is exactly the one the failing step left, and
when that step kept the stack, the opened box is still open on it. -/
theorem layout_macro_balance_amended
    (id : String) (percent : ℚ) (okstep errstep : SurfaceStep)
    (s s1 s2 s2e : Surface) (u : PUnit) (e : CommonError)
    (h_start : s.box_start id percent = Except.ok s1)
    (h_ok : okstep s1 = (Except.ok u, s2))
    (h_keep : s2.stack = s1.stack)
    (h_err : errstep s1 = (Except.error e, s2e)) :
    (∃ s3, s2.box_end = Except.ok s3
      ∧ box_start_with_runnable id percent okstep s =
          (Except.ok PUnit.unit, s3)
      ∧ box_start_with_component id percent okstep s =
          (Except.ok PUnit.unit, s3)
      ∧ s3.stack.length = s.stack.length)
    ∧ box_start_with_runnable id percent errstep s = (Except.error e, s2e)
    ∧ box_start_with_component id percent errstep s = (Except.error e, s2e)
    ∧ (s2e.stack = s1.stack →
        s2e.stack.length = s.stack.length + 1) := by
  have h_cond :
      ¬ (s.parent_span - s.parent_cursor < percent * s.parent_span / 100) := by
    by_contra hc
    simp [Surface.box_start, hc] at h_start
  have h_s1 : s1 =
      { s with stack :=
          { box := { id := id
                     origin := s.parent_origin + s.parent_cursor
                     size := percent * s.parent_span / 100 }
            cursor := 0 } :: s.stack } := by
    simp [Surface.box_start, h_cond] at h_start
    exact h_start.symm
  have h_stack1 : s1.stack =
      { box := { id := id
                 origin := s.parent_origin + s.parent_cursor
                 size := percent * s.parent_span / 100 }
        cursor := 0 } :: s.stack := by
    rw [h_s1]
  refine ⟨?_, ?_, ?_, ?_⟩
  · obtain ⟨s3, h3, hlen, hrec⟩ :=
      box_end_of_stack_cons s2 _ s.stack (h_keep.trans h_stack1)
    exact ⟨s3,
      h3,
      by simp only [box_start_with_runnable, h_start, h_ok, h3],
      by simp only [box_start_with_component, h_start, h_ok, h3],
      hlen⟩
  · simp only [box_start_with_runnable, h_start, h_err]
  · simp only [box_start_with_component, h_start, h_err]
  · intro hkeep
    rw [hkeep, h_stack1]
    simp

/-- Witness for the C5 amended theorem at a concrete surface, box and
concrete succeeding / failing middle steps. -/
theorem layout_macro_balance_amended_witness :
    (∃ s3, Surface.box_end
        { span := 100
          cursor := 0
          stack := [{ box := { id := "x", origin := 0, size := 50 }
                      cursor := 0 }]
          records := [] } = Except.ok s3
      ∧ box_start_with_runnable "x" 50 (fun s => (Except.ok PUnit.unit, s))
          { span := 100 } = (Except.ok PUnit.unit, s3)
      ∧ box_start_with_component "x" 50 (fun s => (Except.ok PUnit.unit, s))
          { span := 100 } = (Except.ok PUnit.unit, s3)
      ∧ s3.stack.length = ({ span := 100 } : Surface).stack.length)
    ∧ box_start_with_runnable "x" 50
        (fun s => (Except.error CommonError.ApplyEventError, s))
        { span := 100 } =
      (Except.error CommonError.ApplyEventError,
        { span := 100
          cursor := 0
          stack := [{ box := { id := "x", origin := 0, size := 50 }
                      cursor := 0 }]
          records := [] })
    ∧ box_start_with_component "x" 50
        (fun s => (Except.error CommonError.ApplyEventError, s))
        { span := 100 } =
      (Except.error CommonError.ApplyEventError,
        { span := 100
          cursor := 0
          stack := [{ box := { id := "x", origin := 0, size := 50 }
                      cursor := 0 }]
          records := [] })
    ∧ (({ span := 100
          cursor := 0
          stack := [{ box := { id := "x", origin := 0, size := 50 }
                      cursor := 0 }]
          records := [] } : Surface).stack =
        ({ span := 100
           cursor := 0
           stack := [{ box := { id := "x", origin := 0, size := 50 }
                       cursor := 0 }]
           records := [] } : Surface).stack →
      ({ span := 100
         cursor := 0
         stack := [{ box := { id := "x", origin := 0, size := 50 }
                     cursor := 0 }]
         records := [] } : Surface).stack.length =
        ({ span := 100 } : Surface).stack.length + 1) :=
  layout_macro_balance_amended "x" 50
    (fun s => (Except.ok PUnit.unit, s))
    (fun s => (Except.error CommonError.ApplyEventError, s))
    { span := 100 }
    { span := 100
      cursor := 0
      stack := [{ box := { id := "x", origin := 0, size := 50 }, cursor := 0 }]
      records := [] }
    { span := 100
      cursor := 0
      stack := [{ box := { id := "x", origin := 0, size := 50 }, cursor := 0 }]
      records := [] }
    { span := 100
      cursor := 0
      stack := [{ box := { id := "x", origin := 0, size := 50 }, cursor := 0 }]
      records := [] }
    PUnit.unit CommonError.ApplyEventError
    (by norm_num [Surface.box_start, Surface.parent_span,
      Surface.parent_cursor, Surface.parent_origin])
    rfl rfl rfl

/-- Helper: the resolved sibling sizes sum to the percentage sum applied
to the parent span. -/
theorem sum_resolved (span : ℚ) (ps : List (String × ℚ)) :
    (ps.map (fun p => p.2 * span / 100)).sum =
      (ps.map Prod.snd).sum * span / 100 := by
  induction ps with
  | nil => simp
  | cons p rest ih =>
    rw [List.map_cons, List.sum_cons, ih, List.map_cons, List.sum_cons]
    ring

/-- Helper: a sibling sequence whose resolved sizes fit in the remaining
span succeeds, advancing the cursor by the total resolved size and
recording each box at the cursor its predecessors left. -/
theorem run_siblings_ok_of_fits (ps : List (String × ℚ)) :
    ∀ (span cursor : ℚ) (records : List LayoutFlexBox), 0 ≤ span →
    (∀ p ∈ ps, 0 ≤ p.2) →
    cursor + (ps.map (fun p => p.2 * span / 100)).sum ≤ span →
    run_siblings
        { span := span, cursor := cursor, stack := [], records := records }
        ps =
      Except.ok
        { span := span
          cursor := cursor + (ps.map (fun p => p.2 * span / 100)).sum
          stack := []
          records := records ++ sibling_boxes span cursor ps } := by
  induction ps with
  | nil =>
    intro span cursor records _ _ _
    simp [run_siblings, sibling_boxes]
  | cons p rest ih =>
    intro span cursor records hspan hnn hfit
    have hrest_nn : 0 ≤ (rest.map (fun q => q.2 * span / 100)).sum := by
      apply List.sum_nonneg
      intro x hx
      obtain ⟨q, hq, rfl⟩ := List.mem_map.mp hx
      have hq2 : 0 ≤ q.2 := hnn q (List.mem_cons_of_mem _ hq)
      positivity
    have hp_nn : 0 ≤ p.2 := hnn p (List.mem_cons_self _ _)
    have hsum_cons :
        ((p :: rest).map (fun q => q.2 * span / 100)).sum =
          p.2 * span / 100 + (rest.map (fun q => q.2 * span / 100)).sum := by
      rw [List.map_cons, List.sum_cons]
    rw [hsum_cons] at hfit
    have hstep : ¬ (span - cursor < p.2 * span / 100) := by
      push_neg
      linarith
    have hse : Surface.start_end
        { span := span, cursor := cursor, stack := [], records := records }
        p.1 p.2 =
        Except.ok
          { span := span
            cursor := cursor + p.2 * span / 100
            stack := []
            records := records ++
              [{ id := p.1, origin := cursor, size := p.2 * span / 100 }] } := by
      simp [Surface.start_end, Surface.box_start, Surface.parent_span,
        Surface.parent_cursor, Surface.parent_origin, hstep, Surface.box_end]
    have ihs := ih span (cursor + p.2 * span / 100)
      (records ++ [{ id := p.1, origin := cursor, size := p.2 * span / 100 }])
      hspan (fun q hq => hnn q (List.mem_cons_of_mem _ hq)) (by linarith)
    simp only [run_siblings, hse, ihs, hsum_cons, Except.ok.injEq,
      Surface.mk.injEq, sibling_boxes, true_and]
    constructor
    · ring
    · simp [List.append_assoc]

/-- C8: for a sequence of sibling box_start calls under one parent whose
requested percentages cumulatively exceed 100, the box_start whose
cumulative percentage first exceeds 100 fails with SizeOverflow, while
every sibling box_start before it succeeded: the earlier sequence ends in
Ok with each earlier box recorded on the surface at its place (no
rollback) and the cursor advanced to their total extent, and the next
box_start on that surface returns SizeOverflow. -/
theorem sibling_overflow_fails_at_first_excess
    (span : ℚ) (ps : List (String × ℚ)) (id : String) (p : ℚ)
    (h_span : 0 < span)
    (h_nonneg : ∀ q ∈ ps, 0 ≤ q.2)
    (h_fit : (ps.map Prod.snd).sum ≤ 100)
    (h_over : 100 < (ps.map Prod.snd).sum + p) :
    run_siblings { span := span, cursor := 0, stack := [], records := [] }
        ps =
      Except.ok
        { span := span
          cursor := (ps.map Prod.snd).sum * span / 100
          stack := []
          records := sibling_boxes span 0 ps }
    ∧ Surface.box_start
        { span := span
          cursor := (ps.map Prod.snd).sum * span / 100
          stack := []
          records := sibling_boxes span 0 ps } id p =
      Except.error CommonError.SizeOverflow := by
  have hsum := sum_resolved span ps
  have h_total_le : (ps.map Prod.snd).sum * span ≤ 100 * span :=
    mul_le_mul_of_nonneg_right h_fit (le_of_lt h_span)
  constructor
  · have h := run_siblings_ok_of_fits ps span 0 [] (le_of_lt h_span) h_nonneg
      (by rw [hsum]; linarith)
    rw [h]
    simp [hsum]
  · have hlt : span - (ps.map Prod.snd).sum * span / 100 < p * span / 100 := by
      nlinarith [mul_pos h_span
        (show (0 : ℚ) < (ps.map Prod.snd).sum + p - 100 by linarith)]
    simp [Surface.box_start, Surface.parent_span, Surface.parent_cursor,
      Surface.parent_origin, hlt]

/-- Witness for C8 at the spec section-8 scenario: a 100-wide surface,
siblings of 60 and 40 percent succeed and stay recorded, and a third box
of 10 percent fails with SizeOverflow. -/
theorem sibling_overflow_fails_at_first_excess_witness :
    run_siblings { span := 100, cursor := 0, stack := [], records := [] }
        [("a", 60), ("b", 40)] =
      Except.ok
        { span := 100
          cursor := 100
          stack := []
          records := [{ id := "a", origin := 0, size := 60 },
                      { id := "b", origin := 60, size := 40 }] }
    ∧ Surface.box_start
        { span := 100
          cursor := 100
          stack := []
          records := [{ id := "a", origin := 0, size := 60 },
                      { id := "b", origin := 60, size := 40 }] } "c" 10 =
      Except.error CommonError.SizeOverflow := by
  have h := sibling_overflow_fails_at_first_excess 100 [("a", 60), ("b", 40)]
    "c" 10 (by norm_num) (by decide) (by norm_num) (by norm_num)
  have e1 : (([("a", 60), ("b", 40)] : List (String × ℚ)).map Prod.snd).sum *
      (100 : ℚ) / 100 = 100 := by norm_num
  have e2 : sibling_boxes 100 0 [("a", 60), ("b", 40)] =
      [{ id := "a", origin := 0, size := 60 },
       { id := "b", origin := 60, size := 40 }] := by
    norm_num [sibling_boxes]
  rw [e1, e2] at h
  exact h

end R3blTui
